import Mathlib

/-!
Shallow embedding of the core of the pants goal-running and target-model code:
`src/python/pants/engine/exp/targets.py` (Variants, Sources, Target) and
`src/python/pants/bin/goal_runner.py` (GoalRunner.run / GoalRunner._execute_engine).
Python truthiness, exception raising and event ordering are modelled explicitly.
-/

namespace Pants

/-! ### Variants (`targets.py` lines 29-43)

Variant keys and values are strings in the source; they are modelled here as
naturals, with Python's ascending string sort modelled by `≤` on the keys. -/

abbrev KVList := List (Nat × Nat)

/-- Models the Python truthiness test `not x` for an argument that is either
`None` or a list: `none` and `some []` are falsy. -/
def optFalsy (x : Option KVList) : Bool :=
  match x with
  | none => true
  | some l => l.isEmpty

/-- Models `merged[key] = value` on a Python dict represented as an association
list: if the key is present its value is replaced, else the pair is appended. -/
def dictInsert (d : KVList) (k v : Nat) : KVList :=
  if d.any (fun p => p.1 == k) then
    d.map (fun p => if p.1 == k then (k, v) else p)
  else
    d ++ [(k, v)]

/-- Models `sorted(merged.items(), key=lambda x: x[0])`: a stable sort of the
pairs in ascending key order. -/
def sortByKey (l : KVList) : KVList :=
  List.insertionSort (fun a b => a.1 ≤ b.1) l

/-- `Variants.merge(left, right)` from `targets.py` lines 29-43:
if `left` is falsy, returns `tuple(right)` when `right` is truthy else `None`;
if `right` is falsy, returns `tuple(left)`; otherwise builds `dict(left)`,
writes each `right` pair over it, and returns the items sorted by key. -/
def Variants.merge (left right : Option KVList) : Option KVList :=
  if optFalsy left then
    if optFalsy right then none else some (right.getD [])
  else if optFalsy right then
    some (left.getD [])
  else
    some (sortByKey ((right.getD []).foldl (fun d p => dictInsert d p.1 p.2) (left.getD [])))

/-- The behaviour `Variants.merge` actually guarantees: `none` iff both sides
are falsy; when exactly one side is truthy that side's pairs are returned in
their given order; when both sides are truthy the result is sorted by key and
right-biased on key collisions. -/
def mergeSpec (left right : Option KVList) : Prop :=
  (Variants.merge left right = none ↔ (optFalsy left ∧ optFalsy right)) ∧
  (optFalsy left = true → optFalsy right = false →
    Variants.merge left right = some (right.getD [])) ∧
  (optFalsy left = false → optFalsy right = true →
    Variants.merge left right = some (left.getD [])) ∧
  (optFalsy left = false → optFalsy right = false →
    ∃ m, Variants.merge left right = some m ∧
      m.Pairwise (fun a b => a.1 ≤ b.1) ∧
      ∀ k v, (k, v) ∈ m ↔
        ((k, v) ∈ right.getD [] ∨
         ((k, v) ∈ left.getD [] ∧ k ∉ (right.getD []).map Prod.fst)))

/-! ### Sources (`targets.py` lines 53-146) -/

/-- Index of the last occurrence of `c` in `l`, or `none`: Python `str.rfind`
returns this index, with `-1` for `none`. -/
def lastIndexOf (l : List Char) (c : Char) : Option Nat :=
  ((l.enum.filter (fun p => p.2 == c)).map (fun p => p.1)).getLast?

/-- `os.path.splitext` for POSIX paths, as implemented by
`genericpath._splitext`: split at the last dot after the last slash, unless
every character between them is a dot (so dotfiles have no extension). -/
def splitext (p : String) : String × String :=
  let l := p.toList
  let sepIdx : Int := match lastIndexOf l '/' with | some i => (i : Int) | none => -1
  let dotIdx : Int := match lastIndexOf l '.' with | some i => (i : Int) | none => -1
  if sepIdx < dotIdx then
    let dotN := dotIdx.toNat
    let startN := (sepIdx + 1).toNat
    if (List.range' startN (dotN - startN)).any (fun j => l.getD j '.' != '.') then
      (String.mk (l.take dotN), String.mk (l.drop dotN))
    else
      (p, "")
  else
    (p, "")

/-- Python `s.startswith(t)`. -/
def strStartsWith (s t : String) : Bool :=
  t.toList.isPrefixOf s.toList

/-- Python `s.endswith(t)`. -/
def strEndsWith (s t : String) : Bool :=
  let sl := s.toList
  let tl := t.toList
  sl.drop (sl.length - tl.length) == tl

/-- `os.path.join(a, b)` for POSIX paths and exactly two components. -/
def pathJoin (a b : String) : String :=
  if strStartsWith b "/" then b
  else if a = "" ∨ strEndsWith a "/" then a ++ b
  else a ++ "/" ++ b

structure Address where
  spec_path : String
  target_name : String
deriving DecidableEq

/-- The `Sources` struct: `extensions` is the abstract property a concrete
subtype declares, `files`/`globs`/`rglobs`/`zglobs` are the constructor
arguments (`none` models Python `None`), `excludes` is the recursive
`Sources`-typed exclusion, and `address` is the optional bound address.
Because `excludes` is recursive on the `Sources` type itself, the Python
`None` sitting in that slot is modelled by the dedicated `null`
constructor. -/
inductive Sources where
  | null
  | mk (name : Option String) (extensions : List String)
       (files : Option (List String)) (globs : Option String)
       (rglobs : Option String) (zglobs : Option String)
       (excludes : Sources) (address : Option Address)

def Sources.extensions : Sources → List String
  | .null => []
  | .mk _ e _ _ _ _ _ _ => e

def Sources.files : Sources → Option (List String)
  | .null => none
  | .mk _ _ f _ _ _ _ _ => f

def Sources.excludes : Sources → Sources
  | .null => .null
  | .mk _ _ _ _ _ _ x _ => x

def Sources.address : Sources → Option Address
  | .null => none
  | .mk _ _ _ _ _ _ _ a => a

/-- `Sources._accept_file` (`targets.py` lines 90-93): accept a file iff its
`splitext` extension is a member of the declared `extensions` collection. -/
def acceptFile (extensions : List String) (f : String) : Bool :=
  extensions.contains (splitext f).2

/-- Error raised by `Sources.__init__` for a file that fails the extension
check; the formatted message names the offending path. -/
def sourcesInitError (f : String) : String :=
  "Path `" ++ f ++ "` selected by Sources is not an accepted file."

/-- `Sources.__init__` (`targets.py` lines 60-88): after the super call, when
both `files` and `self.extensions` are truthy, each file is checked with
`_accept_file` and the first failure raises `ValueError`. -/
def Sources.make (name : Option String) (extensions : List String)
    (files : Option (List String)) (globs rglobs zglobs : Option String)
    (excludes : Sources) (address : Option Address) :
    Except String Sources :=
  if (match files with | some fs => !fs.isEmpty | none => false) && !extensions.isEmpty then
    match (files.getD []).find? (fun f => !acceptFile extensions f) with
    | some f => .error (sourcesInitError f)
    | none => .ok (.mk name extensions files globs rglobs zglobs excludes address)
  else
    .ok (.mk name extensions files globs rglobs zglobs excludes address)

/-- Expansion environment for the external `Globs`/`RGlobs`/`ZGlobs` fileset
wrappers from `pants.source.wrapped_globs`: each maps a base path and a
pattern to the relative paths it matches. -/
structure GlobEnv where
  globs : String → String → List String
  rglobs : String → String → List String
  zglobs : String → String → List String

/-- Line 122 of `targets.py`:
`base_path = self.address.spec_path if self.address else base_path`. -/
def resolveBasePath (s : Sources) (base_path : Option String) : Option String :=
  match s.address with
  | some a => some a.spec_path
  | none => base_path

/-- Message of the `ValueError` raised by `iter_paths` when no truthy base
path is available. -/
def basePathError : String :=
  "A `base_path` must be supplied to iterate paths"

/-- Python would raise `AttributeError` if `iter_paths` were reached on
`None`; the model's `null` constructor only ever occupies the `excludes`
slot, which is tested for truthiness before any call. -/
def noneTypeError : String :=
  "NoneType has no attribute iter_paths"

/-- Body of `Sources.iter_paths` (`targets.py` lines 123-142) after the base
path has been resolved by `resolveBasePath`: a falsy base raises, the
excluded set is computed by recursion on `excludes` (whose own base is again
resolved, exactly as the recursive `self.excludes.iter_paths(base_path)`
call does), then `files` and each truthy glob spec's expansion are
enumerated and `os.path.join(base_path, rel_path)` is yielded for every
candidate accepted by `_accept_file` and not excluded. -/
def iterPathsResolved (env : GlobEnv) : Sources → Option String → Except String (List String)
  | .null, _ => .error noneTypeError
  | .mk _ exts files globs rglobs zglobs excludes _, base =>
    match base with
    | none => .error basePathError
    | some b =>
      if b = "" then .error basePathError
      else
        match (match excludes with
               | .null => (.ok [] : Except String (List String))
               | e => iterPathsResolved env e (resolveBasePath e (some b))) with
        | .error msg => .error msg
        | .ok excluded =>
          let fromFiles := match files with
            | some fs => fs
            | none => []
          let fromGlobs := match globs with
            | some p => if p = "" then [] else env.globs b p
            | none => []
          let fromRGlobs := match rglobs with
            | some p => if p = "" then [] else env.rglobs b p
            | none => []
          let fromZGlobs := match zglobs with
            | some p => if p = "" then [] else env.zglobs b p
            | none => []
          let candidates := fromFiles ++ fromGlobs ++ fromRGlobs ++ fromZGlobs
          .ok (candidates.filterMap (fun rel =>
            if acceptFile exts rel then
              let fp := pathJoin b rel
              if excluded.contains fp then none else some fp
            else none))
termination_by structural s => s

/-- `Sources.iter_paths` (`targets.py` lines 109-142): line 122 resolves the
base path (the address wins over the argument), and the rest of the function
is `iterPathsResolved`. -/
def Sources.iterPaths (env : GlobEnv) (s : Sources) (base_path : Option String) :
    Except String (List String) :=
  iterPathsResolved env s (resolveBasePath s base_path)

/-! ### Target (`targets.py` lines 149-221) -/

/-- A configuration owned by a Target: a `Struct` whose `name` may be `None`.
Only the name matters to `select_configuration`; an id distinguishes
same-named configurations. -/
structure Configuration where
  cfgId : Nat
  name : Option String
deriving DecidableEq

structure Target where
  name : Option String
  configurations : List Configuration

/-- The `Target.ConfigurationNotFound` exception, carrying the requested name
and the matching configurations enumerated by the formatted message. -/
structure ConfigurationNotFound where
  requested : String
  matched : List Configuration
deriving DecidableEq

/-- `Target.select_configuration` (`targets.py` lines 171-186): filter the
configurations by name equality; unless exactly one matches, raise
`ConfigurationNotFound`; else return the single match. -/
def Target.select_configuration (t : Target) (name : String) :
    Except ConfigurationNotFound Configuration :=
  let configs := t.configurations.filter (fun c => c.name == some name)
  if h : configs.length = 1 then
    .ok (configs.get ⟨0, by omega⟩)
  else
    .error ⟨name, configs⟩

/-- Dependency graph over targets for `walk_targets`: target ids stand for
Python object identities, and `configurations t` lists, for each
configuration of target `t`, its `dependencies` already filtered to the
Target-typed values (`isinstance(dep, Target)`). -/
structure TargetGraph where
  configurations : Nat → List (List Nat)

/-- All Target-typed dependency values reachable from the configurations of
one target, in iteration order. -/
def targetDeps (g : TargetGraph) (t : Nat) : List Nat :=
  (g.configurations t).flatten

/-- The inner recursive generator `walk` of `Target.walk_targets`
(`targets.py` lines 207-218), with the mutable `visited` set passed as state
and a fuel argument standing for the call stack. Note the source iterates
`self.configurations` — the configurations of the root the walk started from
— for every visited target, not `target.configurations`. -/
def walkF (g : TargetGraph) (root : Nat) (postorder : Bool) :
    Nat → Nat → List Nat → List Nat × List Nat
  | 0, _, visited => ([], visited)
  | Nat.succ fuel, target, visited =>
    if target ∈ visited then ([], visited)
    else
      let deps := targetDeps g root
      let res := deps.foldl
        (fun (acc : List Nat × List Nat) dep =>
          let r := walkF g root postorder fuel dep acc.2
          (acc.1 ++ r.1, r.2))
        ([], target :: visited)
      if postorder then (res.1 ++ [target], res.2) else (target :: res.1, res.2)

/-- `Target.walk_targets` (`targets.py` lines 197-221): run `walk` on the
target itself with an initially empty visited set and yield its output. -/
def walk_targets (g : TargetGraph) (root : Nat) (postorder : Bool) (fuel : Nat) : List Nat :=
  (walkF g root postorder fuel root []).1

/-! ### GoalRunner (`goal_runner.py` lines 285-357) -/

structure Goal where
  name : String
  orderedTaskNames : List String
deriving DecidableEq

/-- The two `self._context.log.error` messages of `_execute_engine`. -/
inductive ErrMsg where
  | badWorkdir (workdir : String)
  | unknownGoals (names : List String)
deriving DecidableEq

/-- Observable effects of one `GoalRunner` run, in program order. -/
inductive Event where
  | logError (msg : ErrMsg)
  | engineExecute
  | invalidationReport
  | setOutcomeFailure
  | killNailguns
deriving DecidableEq

/-- Exceptions that can cross the `RoundEngine().execute` call. -/
inductive PyExc where
  | keyboardInterrupt
  | otherException
deriving DecidableEq

/-- Behaviour of the external `RoundEngine().execute` call: return an integer
result code, or raise. -/
inductive EngineOutcome where
  | returns (n : Int)
  | raises (e : PyExc)
deriving DecidableEq

/-- `GoalRunner._execute_engine` (`goal_runner.py` lines 312-330): fail with
result 1 if the workdir does not end in `.pants.d`; fail with result 1
listing the goals with no ordered task names; otherwise run the engine, then
(on normal return) emit the invalidation report when one exists, and return
the engine's result. The event list records the effects in order; a raised
exception is an `Except.error`. -/
def executeEngine (workdir : String) (goals : List Goal)
    (hasInvalidationReport : Bool) (engine : EngineOutcome) :
    List Event × Except PyExc Int :=
  if !strEndsWith workdir ".pants.d" then
    ([.logError (.badWorkdir workdir)], .ok 1)
  else
    let unknown := (goals.filter (fun g => g.orderedTaskNames.isEmpty)).map (fun g => g.name)
    if !unknown.isEmpty then
      ([.logError (.unknownGoals unknown)], .ok 1)
    else
      match engine with
      | .returns n =>
        (.engineExecute :: (if hasInvalidationReport then [.invalidationReport] else []), .ok n)
      | .raises e => ([.engineExecute], .error e)

/-- `GoalRunner.run` (`goal_runner.py` lines 332-357): call `_execute_engine`;
a truthy (nonzero) result or any exception marks the root outcome failed; a
`KeyboardInterrupt` additionally forces `should_kill_nailguns` to `True` and
is re-raised; the `finally` block kills nailguns whenever
`should_kill_nailguns` holds; exceptions propagate after cleanup. -/
def GoalRunner.run (killNailguns : Bool) (workdir : String) (goals : List Goal)
    (hasInvalidationReport : Bool) (engine : EngineOutcome) :
    List Event × Except PyExc Int :=
  let (t, r) := executeEngine workdir goals hasInvalidationReport engine
  match r with
  | .ok n =>
    let t := if n ≠ 0 then t ++ [.setOutcomeFailure] else t
    let t := if killNailguns then t ++ [.killNailguns] else t
    (t, .ok n)
  | .error .keyboardInterrupt =>
    (t ++ [.setOutcomeFailure, .killNailguns], .error .keyboardInterrupt)
  | .error .otherException =>
    (t ++ [.setOutcomeFailure] ++ (if killNailguns then [.killNailguns] else []),
     .error .otherException)

/-! ### Concrete inputs used by witnesses and counterexamples -/

/-- Glob environment in which every pattern expands to no paths. -/
def emptyGlobEnv : GlobEnv := ⟨fun _ _ => [], fun _ _ => [], fun _ _ => []⟩

/-- A `Sources` whose concrete subtype declares no extensions, holding one
explicit `.txt` file. -/
def noExtSources : Sources := .mk none [] (some ["a.txt"]) none none none .null none

/-- The 3-node dependency cycle A→B→C→A of the spec, with targets `0`, `1`,
`2`, each carrying one configuration whose single Target dependency is the
next node. -/
def cycleGraph : TargetGraph := ⟨fun t => [[(t + 1) % 3]]⟩

/-- A `Sources` bound to an address with `spec_path = "base"`. -/
def addressedSources : Sources :=
  .mk none [] none none none none .null (some ⟨"base", "t"⟩)

/-- A goal that has ordered task names. -/
def compileGoal : Goal := ⟨"compile", ["jvm-compile"]⟩

instance : IsTotal (Nat × Nat) (fun a b => a.1 ≤ b.1) :=
  ⟨fun a b => Nat.le_total a.1 b.1⟩

instance : IsTrans (Nat × Nat) (fun a b => a.1 ≤ b.1) :=
  ⟨fun _ _ _ => Nat.le_trans⟩

/-! ### Lemmas about `Variants.merge` -/

theorem mem_dictInsert (d : KVList) (k v k' v' : Nat) :
    (k', v') ∈ dictInsert d k v ↔
      ((k' = k ∧ v' = v) ∨ ((k', v') ∈ d ∧ k' ≠ k)) := by
  unfold dictInsert
  by_cases h : d.any (fun p => p.1 == k) = true
  · rw [if_pos h]
    simp only [List.mem_map]
    constructor
    · rintro ⟨p, hp, hpe⟩
      by_cases hk : p.1 = k
      · rw [if_pos (beq_iff_eq.mpr hk)] at hpe
        injection hpe with h1 h2
        exact Or.inl ⟨h1.symm, h2.symm⟩
      · rw [if_neg (by simpa using hk)] at hpe
        subst hpe
        exact Or.inr ⟨hp, hk⟩
    · rintro (⟨hk, hv⟩ | ⟨hmem, hne⟩)
      · rcases List.any_eq_true.mp h with ⟨p, hp, hpk⟩
        refine ⟨p, hp, ?_⟩
        rw [if_pos hpk, hk, hv]
      · exact ⟨(k', v'), hmem, by simp [hne]⟩
  · rw [if_neg h]
    have hnk : ∀ p, p ∈ d → p.1 ≠ k := by
      intro p hp hpk
      exact h (List.any_eq_true.mpr ⟨p, hp, beq_iff_eq.mpr hpk⟩)
    simp only [List.mem_append, List.mem_singleton]
    constructor
    · rintro (hmem | heq)
      · exact Or.inr ⟨hmem, hnk _ hmem⟩
      · injection heq with h1 h2
        exact Or.inl ⟨h1, h2⟩
    · rintro (⟨hk, hv⟩ | ⟨hmem, _⟩)
      · subst hk; subst hv
        exact Or.inr rfl
      · exact Or.inl hmem

theorem mem_foldl_dictInsert (r : KVList) (acc : KVList)
    (hr : (r.map Prod.fst).Nodup) (k v : Nat) :
    (k, v) ∈ r.foldl (fun d p => dictInsert d p.1 p.2) acc ↔
      ((k, v) ∈ r ∨ ((k, v) ∈ acc ∧ k ∉ r.map Prod.fst)) := by
  induction r generalizing acc with
  | nil => simp
  | cons p tl ih =>
    obtain ⟨a, b⟩ := p
    rw [List.map_cons, List.nodup_cons] at hr
    obtain ⟨ha, htl⟩ := hr
    simp only [List.foldl_cons]
    rw [ih _ htl, mem_dictInsert]
    simp only [List.mem_cons, List.map_cons, not_or]
    constructor
    · rintro (htlmem | ⟨(⟨hk, hv⟩ | ⟨haccmem, hne⟩), hkn⟩)
      · exact Or.inl (Or.inr htlmem)
      · subst hk; subst hv
        exact Or.inl (Or.inl rfl)
      · exact Or.inr ⟨haccmem, hne, hkn⟩
    · rintro ((heq | htlmem) | ⟨haccmem, hne, hkn⟩)
      · injection heq with h1 h2
        subst h1; subst h2
        exact Or.inr ⟨Or.inl ⟨rfl, rfl⟩, ha⟩
      · exact Or.inl htlmem
      · exact Or.inr ⟨Or.inr ⟨haccmem, hne⟩, hkn⟩

/-- C3 counterexample: `Variants.merge(None, [(2,5),(1,6)])` returns the right
side exactly as given, `((2,5),(1,6))`, which is not sorted by key — refuting
the claim that every non-`None` result is a tuple of pairs sorted by key. -/
theorem variants_merge_claim_counterexample :
    Variants.merge none (some [(2, 5), (1, 6)]) = some [(2, 5), (1, 6)] ∧
    ¬ ([(2, 5), (1, 6)] : KVList).Pairwise (fun a b => a.1 ≤ b.1) := by
  decide

/-- C3 (amended): `Variants.merge(left, right)` returns `None` exactly when
both inputs are empty/absent; when exactly one side is non-empty that side's
pairs are returned as a tuple in their given order (not re-sorted); when both
sides are non-empty the result is sorted by key with values from `right`
overriding values from `left` on shared keys. -/
theorem variants_merge_amended (left right : Option KVList)
    (hl : ((left.getD []).map Prod.fst).Nodup)
    (hr : ((right.getD []).map Prod.fst).Nodup) :
    mergeSpec left right := by
  refine ⟨?_, ?_, ?_, ?_⟩
  · by_cases hL : optFalsy left = true <;> by_cases hR : optFalsy right = true <;>
      simp [Variants.merge, hL, hR]
  · intro h1 h2
    simp [Variants.merge, h1, h2]
  · intro h1 h2
    simp [Variants.merge, h1, h2]
  · intro h1 h2
    refine ⟨sortByKey ((right.getD []).foldl (fun d p => dictInsert d p.1 p.2) (left.getD [])),
      ?_, ?_, ?_⟩
    · simp [Variants.merge, h1, h2]
    · unfold sortByKey
      exact List.sorted_insertionSort _ _
    · intro k v
      unfold sortByKey
      rw [List.Perm.mem_iff (List.perm_insertionSort _ _)]
      exact mem_foldl_dictInsert _ _ hr k v

/-- C3 witness: the amended merge law instantiated at
`left = ((1,10),(3,30))`, `right = ((3,40),(2,20))`, both with unique keys. -/
theorem variants_merge_amended_witness :
    ((((some [(1, 10), (3, 30)] : Option KVList).getD []).map Prod.fst).Nodup ∧
     (((some [(3, 40), (2, 20)] : Option KVList).getD []).map Prod.fst).Nodup) ∧
    mergeSpec (some [(1, 10), (3, 30)]) (some [(3, 40), (2, 20)]) :=
  ⟨⟨by decide, by decide⟩,
   variants_merge_amended (some [(1, 10), (3, 30)]) (some [(3, 40), (2, 20)])
     (by decide) (by decide)⟩

/-- C1: on the 3-node dependency cycle 0→1→2→0, `walk_targets` from root 0
terminates but yields only `[1, 0]` — target 2 is reachable (it is a
dependency of target 1, itself a dependency of the root) yet is never
yielded, because the inner `walk` iterates `self.configurations` instead of
`target.configurations`. The fuel 10 exceeds the recursion depth. -/
theorem walk_targets_misses_reachable_target :
    walk_targets cycleGraph 0 true 10 = [1, 0] ∧
    1 ∈ targetDeps cycleGraph 0 ∧
    2 ∈ targetDeps cycleGraph 1 ∧
    2 ∉ walk_targets cycleGraph 0 true 10 := by
  decide

/-- C2: a `Sources` whose declared extensions set is empty constructs fine,
but `iter_paths` yields nothing: `_accept_file` tests `ext in self.extensions`
and membership in an empty collection is always false, so `"a.txt"` is
rejected — while the same file with a matching non-empty extensions set is
yielded as `"src/a.txt"`. This contradicts the `extensions` docstring, which
says an empty collection accepts any extension. -/
theorem iter_paths_empty_extensions_rejects_all :
    Sources.make none [] (some ["a.txt"]) none none none .null none = Except.ok noExtSources ∧
    Sources.iterPaths emptyGlobEnv noExtSources (some "src") = Except.ok [] ∧
    acceptFile [] "a.txt" = false ∧
    Sources.iterPaths emptyGlobEnv (.mk none [".txt"] (some ["a.txt"]) none none none .null none)
      (some "src") = Except.ok ["src/a.txt"] :=
  ⟨rfl, rfl, rfl, rfl⟩

/-- C4: `select_configuration` returns a configuration exactly when it is the
unique name match among the target's configurations, and raises
`ConfigurationNotFound` exactly when the number of matches differs from one —
it never silently picks one of several matches. -/
theorem select_configuration_exactly_one (t : Target) (n : String) :
    (∀ c, Target.select_configuration t n = Except.ok c ↔
       t.configurations.filter (fun c' => c'.name == some n) = [c]) ∧
    ((∃ e, Target.select_configuration t n = Except.error e) ↔
       (t.configurations.filter (fun c' => c'.name == some n)).length ≠ 1) := by
  rcases hc : t.configurations.filter (fun c' => c'.name == some n) with _ | ⟨a, _ | ⟨b, l⟩⟩ <;>
    simp [Target.select_configuration, hc]

/-- Shared branch lemma: when the workdir check passes and some requested
goal has no ordered task names, `_execute_engine` logs the unknown-goal list
and returns 1 without running the engine. -/
theorem executeEngine_unknown_branch (workdir : String) (goals : List Goal)
    (inv : Bool) (engine : EngineOutcome)
    (hw : strEndsWith workdir ".pants.d" = true)
    (hfil : goals.filter (fun g => g.orderedTaskNames.isEmpty) ≠ []) :
    executeEngine workdir goals inv engine =
      ([.logError (.unknownGoals
          ((goals.filter (fun g => g.orderedTaskNames.isEmpty)).map (fun g => g.name)))],
       .ok 1) := by
  have hne : ((goals.filter (fun g => g.orderedTaskNames.isEmpty)).map
      (fun g => g.name)).isEmpty = false := by
    cases hm : goals.filter (fun g => g.orderedTaskNames.isEmpty) with
    | nil => exact absurd hm hfil
    | cons a l => simp
  simp [executeEngine, hw, hne]

/-- C6: whenever the configured working directory does not end in the fixed
suffix `.pants.d`, `_execute_engine` logs the bad-workdir error and returns
result code 1 at once, and the engine-execute event never occurs. -/
theorem execute_engine_bad_workdir (workdir : String) (goals : List Goal)
    (inv : Bool) (engine : EngineOutcome)
    (h : strEndsWith workdir ".pants.d" = false) :
    executeEngine workdir goals inv engine = ([.logError (.badWorkdir workdir)], .ok 1) ∧
    Event.engineExecute ∉ (executeEngine workdir goals inv engine).1 := by
  have heq : executeEngine workdir goals inv engine =
      ([.logError (.badWorkdir workdir)], .ok 1) := by
    simp [executeEngine, h]
  refine ⟨heq, ?_⟩
  rw [heq]
  simp

/-- C6 witness: a run with workdir `/tmp/build-out` returns 1 and never
reaches the engine. -/
theorem execute_engine_bad_workdir_witness :
    strEndsWith "/tmp/build-out" ".pants.d" = false ∧
    (executeEngine "/tmp/build-out" [] false (.returns 0) =
       ([.logError (.badWorkdir "/tmp/build-out")], .ok 1) ∧
     Event.engineExecute ∉ (executeEngine "/tmp/build-out" [] false (.returns 0)).1) :=
  ⟨by decide, execute_engine_bad_workdir "/tmp/build-out" [] false (.returns 0) (by decide)⟩

/-- C7 counterexample: with workdir `/tmp/build-out` and the taskless goal
`foo`, `_execute_engine` does return 1 with the engine uninvoked, but the
error logged is the bad-workdir one — the unknown-goals error listing `foo`
is never emitted, refuting the claim for runs whose workdir check fails. -/
theorem execute_engine_unknown_goal_masked_by_workdir :
    executeEngine "/tmp/build-out" [⟨"foo", []⟩] false (.returns 0) =
      ([.logError (.badWorkdir "/tmp/build-out")], .ok 1) ∧
    Event.logError (.unknownGoals ["foo"]) ∉
      (executeEngine "/tmp/build-out" [⟨"foo", []⟩] false (.returns 0)).1 :=
  ⟨rfl, by decide⟩

/-- C7 (amended): in every run whose working directory passes the `.pants.d`
check and in which at least one requested goal has no ordered task names,
`_execute_engine` returns 1 with an error listing the names of all such
goals, and the engine-execute event never occurs. -/
theorem execute_engine_unknown_goals (workdir : String) (goals : List Goal)
    (inv : Bool) (engine : EngineOutcome)
    (hw : strEndsWith workdir ".pants.d" = true)
    (hg : ∃ g ∈ goals, g.orderedTaskNames = []) :
    executeEngine workdir goals inv engine =
      ([.logError (.unknownGoals
          ((goals.filter (fun g => g.orderedTaskNames.isEmpty)).map (fun g => g.name)))],
       .ok 1) ∧
    Event.engineExecute ∉ (executeEngine workdir goals inv engine).1 := by
  obtain ⟨g, hgm, hge⟩ := hg
  have hfil : goals.filter (fun g => g.orderedTaskNames.isEmpty) ≠ [] :=
    List.ne_nil_of_mem (List.mem_filter.mpr ⟨hgm, by simp [hge]⟩)
  have heq := executeEngine_unknown_branch workdir goals inv engine hw hfil
  refine ⟨heq, ?_⟩
  rw [heq]
  simp

/-- C7 witness: the amended statement at workdir `/x/.pants.d` with the
taskless goal `foo`. -/
theorem execute_engine_unknown_goals_witness :
    (strEndsWith "/x/.pants.d" ".pants.d" = true ∧
     ∃ g ∈ ([⟨"foo", []⟩] : List Goal), g.orderedTaskNames = []) ∧
    (executeEngine "/x/.pants.d" [⟨"foo", []⟩] false (.returns 0) =
       ([.logError (.unknownGoals
           ((([⟨"foo", []⟩] : List Goal).filter
               (fun g => g.orderedTaskNames.isEmpty)).map (fun g => g.name)))],
        .ok 1) ∧
     Event.engineExecute ∉ (executeEngine "/x/.pants.d" [⟨"foo", []⟩] false (.returns 0)).1) :=
  ⟨⟨by decide, ⟨⟨"foo", []⟩, by simp⟩⟩,
   execute_engine_unknown_goals "/x/.pants.d" [⟨"foo", []⟩] false (.returns 0)
     (by decide) ⟨⟨"foo", []⟩, by simp⟩⟩

/-- C5: a `KeyboardInterrupt` raised by the engine call inside `run` marks
the outcome failed, kills nailguns even when `kill_nailguns` is false (the
flag is universally quantified here), and re-raises the interrupt to the
caller after cleanup. -/
theorem run_keyboard_interrupt_forces_cleanup (kill : Bool) (workdir : String)
    (goals : List Goal) (inv : Bool)
    (hw : strEndsWith workdir ".pants.d" = true)
    (hg : goals.filter (fun g => g.orderedTaskNames.isEmpty) = []) :
    GoalRunner.run kill workdir goals inv (.raises .keyboardInterrupt) =
      ([.engineExecute, .setOutcomeFailure, .killNailguns], .error .keyboardInterrupt) := by
  simp [GoalRunner.run, executeEngine, hw, hg]

/-- C5 witness: an interrupted run with `kill_nailguns = false` still records
failure, kills nailguns, and re-raises. -/
theorem run_keyboard_interrupt_forces_cleanup_witness :
    (strEndsWith "/repo/.pants.d" ".pants.d" = true ∧
     [compileGoal].filter (fun g => g.orderedTaskNames.isEmpty) = []) ∧
    GoalRunner.run false "/repo/.pants.d" [compileGoal] false (.raises .keyboardInterrupt) =
      ([.engineExecute, .setOutcomeFailure, .killNailguns], .error .keyboardInterrupt) :=
  ⟨⟨by decide, by decide⟩,
   run_keyboard_interrupt_forces_cleanup false "/repo/.pants.d" [compileGoal] false
     (by decide) (by decide)⟩

/-- C9 counterexample: a run whose engine returns 1 is a failing run (the
root outcome is marked failed), yet the invalidation report is still emitted
— refuting the claim that the report is emitted only on succeeding runs. -/
theorem invalidation_report_emitted_on_failing_run :
    GoalRunner.run false "/x/.pants.d" [compileGoal] true (.returns 1) =
      ([.engineExecute, .invalidationReport, .setOutcomeFailure], .ok 1) ∧
    Event.invalidationReport ∈
      (GoalRunner.run false "/x/.pants.d" [compileGoal] true (.returns 1)).1 ∧
    Event.setOutcomeFailure ∈
      (GoalRunner.run false "/x/.pants.d" [compileGoal] true (.returns 1)).1 :=
  ⟨rfl, by decide, by decide⟩

/-- C9 (amended): the invalidation report is emitted exactly when one was
produced during setup, the workdir and unknown-goal preconditions pass, and
the engine call returns normally — irrespective of whether its result code
makes the run succeed or fail; it is never emitted when the engine raises or
a precondition fails. -/
theorem invalidation_report_emitted_iff (kill : Bool) (workdir : String)
    (goals : List Goal) (inv : Bool) (engine : EngineOutcome) :
    Event.invalidationReport ∈ (GoalRunner.run kill workdir goals inv engine).1 ↔
      (inv = true ∧ strEndsWith workdir ".pants.d" = true ∧
       goals.filter (fun g => g.orderedTaskNames.isEmpty) = [] ∧
       ∃ n, engine = EngineOutcome.returns n) := by
  by_cases hw : strEndsWith workdir ".pants.d" = true
  · by_cases hg : goals.filter (fun g => g.orderedTaskNames.isEmpty) = []
    · cases engine with
      | returns n =>
        by_cases hn : n = 0 <;> cases inv <;> cases kill <;>
          simp [GoalRunner.run, executeEngine, hw, hg, hn]
      | raises e =>
        cases e <;> cases kill <;>
          simp [GoalRunner.run, executeEngine, hw, hg]
    · have heq := executeEngine_unknown_branch workdir goals inv engine hw hg
      cases kill <;> simp [GoalRunner.run, heq, hg]
  · have hw' : strEndsWith workdir ".pants.d" = false := by
      simpa using hw
    cases kill <;> simp [GoalRunner.run, executeEngine, hw', hw]

/-- C8: when `files` and the declared extensions set are both non-empty,
construction succeeds exactly when every listed file's extension is
accepted; when some file fails the check, construction raises the
`ValueError` naming the first offending path. -/
theorem sources_make_validates (name : Option String) (exts : List String)
    (files : List String) (globs rglobs zglobs : Option String)
    (excludes : Sources) (address : Option Address)
    (hf : files ≠ []) (he : exts ≠ []) :
    ((∃ s, Sources.make name exts (some files) globs rglobs zglobs excludes address =
        Except.ok s) ↔ ∀ f ∈ files, acceptFile exts f = true) ∧
    (∀ f, files.find? (fun x => !acceptFile exts x) = some f →
       Sources.make name exts (some files) globs rglobs zglobs excludes address =
         Except.error (sourcesInitError f)) := by
  have hcond : ((match some files with
      | some fs => !fs.isEmpty
      | none => false) && !exts.isEmpty) = true := by
    simp [hf, he]
  unfold Sources.make
  rw [if_pos hcond]
  simp only [Option.getD_some]
  cases hfind : files.find? (fun x => !acceptFile exts x) with
  | some f =>
    constructor
    · constructor
      · rintro ⟨s, hs⟩
        cases hs
      · intro hall
        have hp := List.find?_some hfind
        have hmem := List.mem_of_find?_eq_some hfind
        rw [hall f hmem] at hp
        cases hp
    · intro f' hf'
      injection hf' with h
      subst h
      rfl
  | none =>
    constructor
    · constructor
      · intro _ f hmem
        have := List.find?_eq_none.mp hfind f hmem
        simpa using this
      · intro _
        exact ⟨_, rfl⟩
    · intro f hf'
      simp at hf'

/-- C8 witness: constructing a Sources with `files=["a.txt"]` and
`extensions={".py"}` fails at construction, naming `a.txt`. -/
theorem sources_make_validates_witness :
    ((["a.txt"] : List String) ≠ [] ∧ ([".py"] : List String) ≠ []) ∧
    (((∃ s, Sources.make none [".py"] (some ["a.txt"]) none none none .null none =
        Except.ok s) ↔ ∀ f ∈ ["a.txt"], acceptFile [".py"] f = true) ∧
     (∀ f, (["a.txt"] : List String).find? (fun x => !acceptFile [".py"] x) = some f →
        Sources.make none [".py"] (some ["a.txt"]) none none none .null none =
          Except.error (sourcesInitError f))) :=
  ⟨⟨by decide, by decide⟩,
   sources_make_validates none [".py"] ["a.txt"] none none none .null none
     (by decide) (by decide)⟩

/-- C10: when a Sources value is addressable, `iter_paths` resolves its base
path from the address's `spec_path` and is insensitive to the explicitly
supplied `base_path` argument; the explicit argument is the resolved base
only when the value has no address. -/
theorem iter_paths_address_overrides_base_path (env : GlobEnv) (s : Sources)
    (a : Address) (h : s.address = some a) :
    (∀ bp1 bp2, Sources.iterPaths env s bp1 = Sources.iterPaths env s bp2) ∧
    (∀ bp, resolveBasePath s bp = some a.spec_path) ∧
    (∀ s2 : Sources, ∀ bp : Option String,
       s2.address = none → resolveBasePath s2 bp = bp) := by
  refine ⟨fun bp1 bp2 => ?_, fun bp => ?_, fun s2 bp h2 => ?_⟩
  · simp [Sources.iterPaths, resolveBasePath, h]
  · simp [resolveBasePath, h]
  · simp [resolveBasePath, h2]

/-- C10 witness: an addressed Sources iterates the same paths whatever
`base_path` argument is passed, and the resolver returns its `spec_path`. -/
theorem iter_paths_address_overrides_base_path_witness :
    addressedSources.address = some ⟨"base", "t"⟩ ∧
    ((∀ bp1 bp2, Sources.iterPaths emptyGlobEnv addressedSources bp1 =
        Sources.iterPaths emptyGlobEnv addressedSources bp2) ∧
     (∀ bp, resolveBasePath addressedSources bp =
        some (Address.mk "base" "t").spec_path) ∧
     (∀ s2 : Sources, ∀ bp : Option String,
        s2.address = none → resolveBasePath s2 bp = bp)) :=
  ⟨rfl, iter_paths_address_overrides_base_path emptyGlobEnv addressedSources ⟨"base", "t"⟩ rfl⟩

end Pants
